import Mathlib

/-!
Verification of the RSS-parsing repository (rss_parse/parse/rss_parser.py and
AleksandraKhorosheva/Task2.py) against its natural-language specification.

The Python code is shallowly embedded: the untyped tree produced by XML
decoding becomes the inductive `XNode`; Python exceptions become the `PyErr`
error type of `Except`; the injected message sink becomes the `MC` type,
threaded through the computation in state-passing style.  Collaborators that
live outside src/ (xmltodict, requests, the rss_keys constants, the utils
sanitizer and date parser, the JSON mapper) are modelled from the spec and
marked as such in their doc comments.
-/

/-- Python exception values that the embedded code can raise. -/
inductive PyErr
  | parsingException (msg : String)
  | keyError (key : String)
  | attributeError (attr : String)
  | typeError (msg : String)
deriving DecidableEq

/-- The untyped tree produced by decoding XML: nested string-keyed mappings,
sequences and text scalars (the shapes xmltodict produces). -/
inductive XNode
  | str (s : String)
  | list (l : List XNode)
  | obj (d : List (String × XNode))

/-- Python truthiness of a decoded node: empty strings, lists and mappings
are False-y. -/
def XNode.truthy : XNode → Bool
  | .str s => !s.isEmpty
  | .list l => !l.isEmpty
  | .obj d => !d.isEmpty

/-- Python truthiness of an optional node (`None` is False-y). -/
def truthyO : Option XNode → Bool
  | none => false
  | some n => n.truthy

/-- Python truthiness of an optional string. -/
def truthyOptStr : Option String → Bool
  | none => false
  | some s => !s.isEmpty

/-- Split a character list at every occurrence of `sep` (the pieces keep no
separator), structurally recursive so that concrete inputs evaluate. -/
def splitOnChar (sep : Char) : List Char → List (List Char)
  | [] => [[]]
  | c :: cs =>
    if c = sep then [] :: splitOnChar sep cs
    else
      match splitOnChar sep cs with
      | [] => [[c]]
      | t :: ts => (c :: t) :: ts

/-- Split a string at every occurrence of the character `sep`. -/
def strSplitOnChar (sep : Char) (s : String) : List String :=
  (splitOnChar sep s.data).map String.mk

/-- Whether a string ends with the character `c`. -/
def endsWithChar (c : Char) (s : String) : Bool :=
  s.data.getLast? == some c

/-- Whether the character list `pat` is an initial segment of `cs`. -/
def startsWithChars : List Char → List Char → Bool
  | [], _ => true
  | _ :: _, [] => false
  | a :: pat, b :: cs => a == b && startsWithChars pat cs

/-- Python `s.startswith(p)`. -/
def strStartsWith (s p : String) : Bool :=
  startsWithChars p.data s.data

/-- Helper for `strToNat?`: accumulate decimal digits, failing on any
non-digit character. -/
def digitsToNatAux : List Char → Nat → Option Nat
  | [], acc => some acc
  | c :: cs, acc =>
    if c.isDigit then digitsToNatAux cs (acc * 10 + (c.toNat - 48)) else none

/-- Parse a non-empty all-digit string as a natural number. -/
def strToNat? (s : String) : Option Nat :=
  match s.data with
  | [] => none
  | cs => digitsToNatAux cs 0

/-- Python `d[k]` on a decoded node: mapping lookup raising KeyError when the
key is absent, TypeError when the node is not a mapping. -/
def XNode.subscript : XNode → String → Except PyErr XNode
  | .obj d, k =>
    match d.lookup k with
    | some v => Except.ok v
    | none => Except.error (PyErr.keyError k)
  | .str _, _ => Except.error (PyErr.typeError "string indices must be integers")
  | .list _, _ => Except.error (PyErr.typeError "list indices must be integers")

/-- Python `for x in v` over a decoded node: a list yields its elements, a
mapping yields its keys (as strings), a string yields its one-character
substrings. -/
def XNode.pyIter : XNode → List XNode
  | .str s => s.data.map (fun c => XNode.str (String.mk [c]))
  | .list l => l
  | .obj d => d.map (fun kv => XNode.str kv.1)

/-- Python `v.get(k)` (default None): mapping lookup, AttributeError when the
receiver is not a mapping. -/
def pyGetOn (v : XNode) (k : String) : Except PyErr (Option XNode) :=
  match v with
  | .obj d => Except.ok (d.lookup k)
  | _ => Except.error (PyErr.attributeError "get")

/-- The `or {}` default used at call sites of the form `d.get(k, {})`. -/
def getOrEmptyObj : Option XNode → XNode
  | none => XNode.obj []
  | some v => v

/-- Total lookup of key `k` inside an optional sub-mapping, used on the
specification side of the image-extraction claims. -/
def subLookup : Option XNode → String → Option XNode
  | some (.obj sd), k => sd.lookup k
  | _, _ => none

/-- The message-sink collaborator: Python `None` (no sink supplied), the no-op
consumer, or a consumer that records the messages it was given. -/
inductive MC
  | pyNone
  | noop
  | collector (msgs : List String)
deriving DecidableEq

/-- Modelled from the spec: the no-op message consumer from
utils/messaging_utils.py (not under src/), the intended default sink. -/
def MESSAGE_CONSUMER_NOOP : MC := MC.noop

/-- Python `mc.add_message(m)`: `None` has no such attribute; the no-op
consumer ignores the message; a recording consumer appends it. -/
def MC.add_message : MC → String → Except PyErr MC
  | .pyNone, _ => Except.error (PyErr.attributeError "add_message")
  | .noop, _ => Except.ok MC.noop
  | .collector ms, m => Except.ok (MC.collector (ms ++ [m]))

/-- A canonical timestamp, the result of parsing a publication date. -/
structure Timestamp where
  day : Nat
  month : Nat
  year : Nat
  hour : Nat
  minute : Nat
  second : Nat
  zone : String
deriving DecidableEq

/-- Month names of the RFC-822 publication-date format. -/
def monthNames : List String :=
  ["Jan", "Feb", "Mar", "Apr", "May", "Jun",
   "Jul", "Aug", "Sep", "Oct", "Nov", "Dec"]

/-- Helper for `to_date`: parse an `hh:mm:ss` clock field. -/
def parseClock (t : String) : Option (Nat × Nat × Nat) :=
  match strSplitOnChar ':' t with
  | [h, m, s] =>
    match strToNat? h, strToNat? m, strToNat? s with
    | some hh, some mm, some ss =>
      if hh < 24 && mm < 60 && ss < 60 then some (hh, mm, ss) else none
    | _, _, _ => none
  | _ => none

/-- Modelled from the spec: `to_date` from utils/parsing_utils.py (not under
src/) parses a publication date in the common RFC-822 feed style
("Mon, 01 Jan 2024 00:00:00 GMT") and returns null, never an error, for null
or unparsable input. -/
def to_date : Option String → Option Timestamp
  | none => none
  | some s =>
    match (strSplitOnChar ' ' s).filter (fun t => !t.isEmpty) with
    | [wd, dd, mon, yyyy, time, zone] =>
      if endsWithChar ',' wd then
        match strToNat? dd, monthNames.findIdx? (fun m => m == mon),
              strToNat? yyyy, parseClock time with
        | some d, some mi, some y, some (hh, mm, ss) =>
          if 1 ≤ d && d ≤ 31 then
            some ⟨d, mi + 1, y, hh, mm, ss, zone⟩
          else none
        | _, _, _, _ => none
      else none
    | _ => none

/-- Modelled from the spec: `sanitize_text` from utils/parsing_utils.py (not
under src/) trims and normalizes whitespace in free text; null maps to null. -/
def sanitize_text : Option String → Option String
  | none => none
  | some s =>
    some (String.intercalate " "
      ((strSplitOnChar ' ' s).filter (fun t => !t.isEmpty)))

/-- A decoded item field viewed through the string-typed contract of the
sanitizer and the date parser: non-string nodes fall outside that contract
and are treated as null. -/
def fieldAsStr : Option XNode → Option String
  | some (.str s) => some s
  | _ => none

/-- Modelled from the spec (rss_keys.py is not under src/): the key of the
RSS root element. -/
def RSS_ROOT : String := "rss"

/-- Modelled from the spec: the key of the channel element. -/
def RSS_CHANNEL : String := "channel"

/-- Modelled from the spec: the key of the repeated item elements. -/
def RSS_ITEMS : String := "item"

/-- Modelled from the spec: the title key of an item. -/
def RSS_ITEM_TITLE : String := "title"

/-- Modelled from the spec: the description key of an item. -/
def RSS_ITEM_DESCRIPTION : String := "description"

/-- Modelled from the spec: the publication-date key of an item. -/
def RSS_ITEM_PUB_DATE : String := "pubDate"

/-- Modelled from the spec: the link key of an item. -/
def RSS_ITEM_LINK : String := "link"

/-- Modelled from the spec: the direct image key of an item. -/
def RSS_IMAGE_ROOT : String := "image"

/-- Modelled from the spec: the media:content sub-object key. -/
def RSS_IMAGE_ROOT_MEDIA_CONTENT : String := "media:content"

/-- Modelled from the spec: the media:thumbnail sub-object key. -/
def RSS_IMAGE_ROOT_MEDIA_THUMBNAIL : String := "media:thumbnail"

/-- Modelled from the spec: the enclosure sub-object key. -/
def RSS_IMAGE_ROOT_ENCLOSURE : String := "enclosure"

/-- Modelled from the spec: the url attribute key, in the xmltodict attribute
naming convention (matching the literal attribute key used in the source). -/
def RSS_IMAGE_URL_ATTR : String := "@url"

/-- One feed item (rss_feed.py is not under src/; the record follows the
Item shape of the spec and the constructor call in parse_item). -/
structure RssItem where
  title : Option String
  description : Option XNode
  publication_date : Option Timestamp
  link : Option XNode
  image_url : Option XNode
  source : Option String

/-- A feed: the ordered sequence of accepted items. -/
structure RssFeed where
  rss_items : List RssItem

/-- The result of xmltodict decoding as seen by RssXmlParser.parse: `none`
when decoding raised ExpatError, otherwise the top-level string-keyed
mapping. Decoding itself is an external library concern. -/
def DecodeResult : Type := Option (List (String × XNode))

/-- The XML-text parser: its stored document (as a decode result) and its
message sink. -/
structure RssXmlParser where
  xml_feed : DecodeResult
  _mc : MC

/-- Models the abstract base `RssParser.__init__` (rss_parser.py line 22):
its `mc` parameter defaults to `MESSAGE_CONSUMER_NOOP` when the argument is
omitted; `none` here means the argument was omitted. -/
def RssParser_initBase : Option MC → MC
  | none => MESSAGE_CONSUMER_NOOP
  | some m => m

/-- `RssXmlParser(xml_feed)` with no `mc` argument: the subclass parameter
default is `None`, it is passed explicitly to the base initializer, and then
`self._mc = mc` re-assigns it, so the stored sink is Python `None`. -/
def RssXmlParser.initNoMc (xml_feed : DecodeResult) : RssXmlParser :=
  ⟨xml_feed, MC.pyNone⟩

/-- `RssXmlParser(xml_feed, mc=mc)` with an explicit sink. -/
def RssXmlParser.initMc (xml_feed : DecodeResult) (mc : MC) : RssXmlParser :=
  ⟨xml_feed, mc⟩

/-- Embeds `RssXmlParser.parse_image` (rss_parser.py lines 95-105): try the
direct image field, then the media:content url, then the media:thumbnail url,
then — only when the enclosure's declared type starts with "image/" — the
url of the enclosure; each False-y value falls through to the next location, and
the variable holding the last examined value is returned. -/
def RssXmlParser.parse_image (d : List (String × XNode)) :
    Except PyErr (Option XNode) :=
  let u1 := d.lookup RSS_IMAGE_ROOT
  if truthyO u1 then Except.ok u1 else
  match pyGetOn (getOrEmptyObj (d.lookup RSS_IMAGE_ROOT_MEDIA_CONTENT))
        RSS_IMAGE_URL_ATTR with
  | .error e => Except.error e
  | .ok u2 =>
    if truthyO u2 then Except.ok u2 else
    match pyGetOn (getOrEmptyObj (d.lookup RSS_IMAGE_ROOT_MEDIA_THUMBNAIL))
          RSS_IMAGE_URL_ATTR with
    | .error e => Except.error e
    | .ok u3 =>
      if truthyO u3 then Except.ok u3 else
      let encl := getOrEmptyObj (d.lookup RSS_IMAGE_ROOT_ENCLOSURE)
      match pyGetOn encl "@type" with
      | .error e => Except.error e
      | .ok tOpt =>
        match tOpt.getD (XNode.str "") with
        | .str t =>
          if strStartsWith t "image/" then
            match pyGetOn encl RSS_IMAGE_URL_ATTR with
            | .error e => Except.error e
            | .ok u4 => Except.ok u4
          else Except.ok u3
        | _ => Except.error (PyErr.attributeError "startswith")

/-- Embeds `RssXmlParser.parse_item` (rss_parser.py lines 86-93): extract the
candidate fields from one raw item node; a non-mapping node has no `get`
attribute. -/
def RssXmlParser.parse_item (node : XNode) : Except PyErr RssItem :=
  match node with
  | .obj d =>
    match RssXmlParser.parse_image d with
    | .error e => Except.error e
    | .ok image_url =>
      Except.ok
        { title := sanitize_text (fieldAsStr (d.lookup RSS_ITEM_TITLE))
          description := d.lookup RSS_ITEM_DESCRIPTION
          publication_date := to_date (fieldAsStr (d.lookup RSS_ITEM_PUB_DATE))
          link := d.lookup RSS_ITEM_LINK
          image_url := image_url
          source := none }
  | _ => Except.error (PyErr.attributeError "get")

/-- Embeds `RssXmlParser.__validate_correctness` (rss_parser.py lines
107-108): Python truthiness of `item.title and item.publication_date and
item.link` (a timestamp object is always truthy). -/
def RssXmlParser.validate_correctness (it : RssItem) : Bool :=
  truthyOptStr it.title && it.publication_date.isSome && truthyO it.link

/-- The diagnostic emitted for each item that fails validation
(rss_parser.py line 83). -/
def skipMsg : String :=
  "Item skipped because it is invalid (required fields are absent)"

/-- Embeds the `for rss_item_dict in rss_items_raw` loop of
`RssXmlParser.parse_items` (rss_parser.py lines 77-84): each raw node is
extracted and validated; accepted items are appended in order; each rejected
item adds one diagnostic to the sink and the loop continues. -/
def RssXmlParser.parse_items_loop (mc : MC) :
    List XNode → Except PyErr (List RssItem × MC)
  | [] => Except.ok ([], mc)
  | r :: rs =>
    match RssXmlParser.parse_item r with
    | .error e => Except.error e
    | .ok item =>
      if RssXmlParser.validate_correctness item then
        match RssXmlParser.parse_items_loop mc rs with
        | .error e => Except.error e
        | .ok (res, mc2) => Except.ok (item :: res, mc2)
      else
        match mc.add_message skipMsg with
        | .error e => Except.error e
        | .ok mc1 => RssXmlParser.parse_items_loop mc1 rs

/-- Embeds `RssXmlParser.parse_items` (rss_parser.py lines 75-84): the
subscripts `rss_feed_dict[RSS_CHANNEL][RSS_ITEMS]` sit outside any
try/except, then the loop runs over Python iteration of the result. -/
def RssXmlParser.parse_items (rss_feed_dict : XNode) (mc : MC) :
    Except PyErr (List RssItem × MC) :=
  match rss_feed_dict.subscript RSS_CHANNEL with
  | .error e => Except.error e
  | .ok ch =>
    match ch.subscript RSS_ITEMS with
    | .error e => Except.error e
    | .ok itemsNode => RssXmlParser.parse_items_loop mc itemsNode.pyIter

/-- Embeds the guarded `xmltodict.parse(...)[RSS_ROOT]` of
`RssXmlParser.parse` (rss_parser.py lines 64-67): a decoding ExpatError or a
missing root key is caught and re-raised as ParsingException. -/
def tryGetRoot : DecodeResult → Except PyErr XNode
  | none => Except.error
      (PyErr.parsingException "Source doesn't contain a valid RSS Feed.")
  | some a =>
    match a.lookup RSS_ROOT with
    | some v => Except.ok v
    | none => Except.error
        (PyErr.parsingException "Source doesn't contain a valid RSS Feed.")

/-- Embeds `RssXmlParser.parse` (rss_parser.py lines 61-73). -/
def RssXmlParser.parse (p : RssXmlParser) : Except PyErr (RssFeed × MC) :=
  match p._mc.add_message "Parsing RSS Feed by elements" with
  | .error e => Except.error e
  | .ok mc1 =>
    match tryGetRoot p.xml_feed with
    | .error e => Except.error e
    | .ok rss_feed_dict =>
      match mc1.add_message "Parsing items info" with
      | .error e => Except.error e
      | .ok mc2 =>
        match RssXmlParser.parse_items rss_feed_dict mc2 with
        | .error e => Except.error e
        | .ok (items, mc3) =>
          match mc3.add_message "Parsing finished" with
          | .error e => Except.error e
          | .ok mc4 => Except.ok (⟨items⟩, mc4)

/-- The outcome of the external `requests.get` call for the stored source:
a response (status code plus decoded body), one of the invalid-URL
exception classes (InvalidSchema, InvalidURL, MissingSchema), or any other
request failure such as ConnectionError. The response body is represented
by its decode result since both collaborators are external. -/
inductive FetchResult
  | ok (status : Nat) (body : DecodeResult)
  | invalidUrlErr
  | connectionErr

/-- The URL adapter: source string, sink, and the outcome its single
`requests.get` would produce. -/
structure RssUrlParser where
  source : String
  _mc : MC
  fetch : FetchResult

/-- `RssUrlParser(source)` with no `mc` argument: as in the XML adapter, the
stored sink is Python `None`. -/
def RssUrlParser.initNoMc (source : String) (fetch : FetchResult) :
    RssUrlParser :=
  ⟨source, MC.pyNone, fetch⟩

/-- The `except (InvalidSchema, InvalidURL, MissingSchema)` handler of
`RssUrlParser.parse` (rss_parser.py lines 128-130). -/
def RssUrlParser.handleInvalid (mc : MC) (s : String) :
    Except PyErr (RssFeed × MC) :=
  match mc.add_message "Encountered an error during reading RSS Feed from URL" with
  | .error e => Except.error e
  | .ok _ => Except.error (PyErr.parsingException ("Invalid source URL: " ++ s))

/-- The bare `except` handler of `RssUrlParser.parse` (rss_parser.py lines
131-133), reached for connection failures, for the `raise Exception` of a
non-200 status, and for any other exception of the try block. -/
def RssUrlParser.handleConnect (mc : MC) (s : String) :
    Except PyErr (RssFeed × MC) :=
  match mc.add_message "Unable to connect" with
  | .error e => Except.error e
  | .ok _ => Except.error (PyErr.parsingException ("Unable to connect to " ++ s))

/-- Embeds `RssUrlParser.parse` (rss_parser.py lines 121-141): the try block
reaches out, checks the status, and on success delegates to the XML adapter
(with the same sink) and stamps the source field of every item. An AttributeError
from a missing sink inside the try block lands in the bare except handler. -/
def RssUrlParser.parse (p : RssUrlParser) : Except PyErr (RssFeed × MC) :=
  match p._mc.add_message ("Reaching out to " ++ p.source) with
  | .error _ => RssUrlParser.handleConnect p._mc p.source
  | .ok mc1 =>
    match p.fetch with
    | .invalidUrlErr => RssUrlParser.handleInvalid mc1 p.source
    | .connectionErr => RssUrlParser.handleConnect mc1 p.source
    | .ok status body =>
      if status = 200 then
        match RssXmlParser.parse ⟨body, mc1⟩ with
        | .error e => Except.error e
        | .ok (feed, mc2) =>
          Except.ok
            (⟨feed.rss_items.map (fun it => { it with source := some p.source })⟩,
             mc2)
      else RssUrlParser.handleConnect mc1 p.source

/-- Helper of the modelled JSON mapper: decode one serialized item record
(tab-separated fields; an empty field stands for null). -/
def itemOfLine (line : String) : RssItem :=
  let fs := strSplitOnChar '\t' line
  let f := fun (i : Nat) => fs.getD i ""
  let opt := fun (s : String) => if s = "" then none else some s
  { title := opt (f 0)
    description := (opt (f 1)).map XNode.str
    publication_date := to_date (opt (f 2))
    link := (opt (f 3)).map XNode.str
    image_url := (opt (f 4)).map XNode.str
    source := opt (f 5) }

/-- Modelled from the spec: `RSS_FEED_JSON_MAPPER.from_json` (rss_mapper.py,
not under src/) deserializes a snapshot directly into the Feed shape — a
sequence of item records mirroring the Item fields, with key/field naming an
implementation choice; no extraction or validation is involved. We model the
snapshot as one item record per non-empty line. -/
def RSS_FEED_JSON_MAPPER_from_json (c : String) : RssFeed :=
  ⟨((strSplitOnChar '\n' c).filter (fun l => !l.isEmpty)).map itemOfLine⟩

/-- The JSON-file adapter. `file_content` is the state of the file system at
the stored path: `none` when the path does not exist (os.path.exists is
false), otherwise the text content read from the file. -/
structure RssJsonParser where
  file_content : Option String
  _mc : MC

/-- Embeds `RssJsonParser.parse` (rss_parser.py lines 43-48): a missing file
yields an empty feed; otherwise the content is handed to the JSON mapper.
The sink is never consulted on this path. -/
def RssJsonParser.parse (p : RssJsonParser) : Except PyErr RssFeed :=
  match p.file_content with
  | none => Except.ok ⟨[]⟩
  | some c => Except.ok (RSS_FEED_JSON_MAPPER_from_json c)

/-- Embeds `HistoryDict` (Task2.py lines 18-31): a dictionary (modelled as a
function to optional values), the capacity, and the history list. -/
structure HistoryDict (K V : Type) where
  dict : K → Option V
  count : Nat
  history : List K

/-- `HistoryDict(dict, count)`: history starts empty. -/
def HistoryDict.init {K V : Type} (d : K → Option V) (count : Nat) :
    HistoryDict K V :=
  ⟨d, count, []⟩

/-- The Python slice `l[-c:]` for a natural `c`: for `c = 0` this is `l[0:]`,
the whole list, not the empty suffix. -/
def pyLastSlice {α : Type} (l : List α) (c : Nat) : List α :=
  if c = 0 then l else l.drop (l.length - c)

/-- Embeds `HistoryDict.set_value` (Task2.py lines 25-28): store the value,
append the key to the history, and keep the slice `history[-count:]`. -/
def HistoryDict.set_value {K V : Type} [DecidableEq K]
    (h : HistoryDict K V) (k : K) (v : V) : HistoryDict K V :=
  { dict := fun q => if q = k then some v else h.dict q
    count := h.count
    history := pyLastSlice (h.history ++ [k]) h.count }

/-- Embeds `HistoryDict.get_history` (Task2.py lines 30-31). -/
def HistoryDict.get_history {K V : Type} (h : HistoryDict K V) : List K :=
  h.history

/-- A sequence of `set_value` calls, in order. -/
def HistoryDict.run {K V : Type} [DecidableEq K]
    (h : HistoryDict K V) (ops : List (K × V)) : HistoryDict K V :=
  ops.foldl (fun acc kv => acc.set_value kv.1 kv.2) h

/-- Discriminates whether a parse outcome is a ParsingException failure. -/
def isParsingException : Except PyErr (RssFeed × MC) → Bool
  | .error (.parsingException _) => true
  | _ => false

/-- C5: the validator accepts an item exactly when its title is a non-empty
string, its publication date is non-null and its link is truthy (non-empty);
the description and imageUrl fields never influence the verdict. -/
theorem C5_validator_iff (it : RssItem) :
    (RssXmlParser.validate_correctness it = true ↔
      (∃ s, it.title = some s ∧ s ≠ "") ∧
        it.publication_date.isSome = true ∧ truthyO it.link = true)
    ∧ ∀ dsc img : Option XNode,
        RssXmlParser.validate_correctness
            { it with description := dsc, image_url := img }
          = RssXmlParser.validate_correctness it := by
  constructor
  · cases hti : it.title with
    | none =>
      simp [RssXmlParser.validate_correctness, truthyOptStr, hti]
    | some s =>
      simp [RssXmlParser.validate_correctness, truthyOptStr, hti,
        String.isEmpty_iff, and_assoc, Bool.eq_false_iff]
  · intro dsc img
    rfl

/-- C2: a parser variant constructed without a message sink does not get the
no-op default: the subclass initializer stores Python None (although the
omitted-argument default of the base initializer is the no-op consumer), and
parse() then fails with AttributeError on every input instead of behaving
like a parse with a sink. -/
theorem C2_missing_sink_is_none_not_noop (d : DecodeResult) :
    RssParser_initBase none = MESSAGE_CONSUMER_NOOP
    ∧ (RssXmlParser.initNoMc d)._mc = MC.pyNone
    ∧ RssXmlParser.parse (RssXmlParser.initNoMc d)
        = Except.error (PyErr.attributeError "add_message")
    ∧ MC.pyNone ≠ MESSAGE_CONSUMER_NOOP :=
  ⟨rfl, rfl, rfl, by decide⟩

/-- C1 counterexample: a document whose decoded tree has the root key but no
channel key makes parse() fail with a KeyError, not with ParsingException. -/
theorem C1_counterexample :
    RssXmlParser.parse
        (RssXmlParser.initMc (some [(RSS_ROOT, XNode.obj [])]) (MC.collector []))
      = Except.error (PyErr.keyError RSS_CHANNEL)
    ∧ isParsingException
        (RssXmlParser.parse
          (RssXmlParser.initMc (some [(RSS_ROOT, XNode.obj [])]) (MC.collector [])))
      = false :=
  ⟨rfl, rfl⟩

/-- C1 (amended): with a usable sink, a decode failure or missing root key
makes parse() fail with ParsingException, while a missing channel key or a
missing item-list key makes it fail with a KeyError instead. -/
theorem C1_amended_error_kinds (ms : List String) :
    (∀ d : DecodeResult,
      (d = none ∨ ∃ a, d = some a ∧ a.lookup RSS_ROOT = none) →
      RssXmlParser.parse (RssXmlParser.initMc d (MC.collector ms))
        = Except.error
            (PyErr.parsingException "Source doesn't contain a valid RSS Feed."))
    ∧ (∀ a r, a.lookup RSS_ROOT = some (XNode.obj r) →
      r.lookup RSS_CHANNEL = none →
      RssXmlParser.parse (RssXmlParser.initMc (some a) (MC.collector ms))
        = Except.error (PyErr.keyError RSS_CHANNEL))
    ∧ (∀ a r c, a.lookup RSS_ROOT = some (XNode.obj r) →
      r.lookup RSS_CHANNEL = some (XNode.obj c) →
      c.lookup RSS_ITEMS = none →
      RssXmlParser.parse (RssXmlParser.initMc (some a) (MC.collector ms))
        = Except.error (PyErr.keyError RSS_ITEMS)) := by
  refine ⟨?_, ?_, ?_⟩
  · rintro d (rfl | ⟨a, rfl, ha⟩)
    · rfl
    · simp [RssXmlParser.parse, RssXmlParser.initMc, MC.add_message, tryGetRoot, ha]
  · intro a r hroot hch
    simp [RssXmlParser.parse, RssXmlParser.initMc, MC.add_message, tryGetRoot,
      hroot, RssXmlParser.parse_items, XNode.subscript, hch]
  · intro a r c hroot hch hit
    simp [RssXmlParser.parse, RssXmlParser.initMc, MC.add_message, tryGetRoot,
      hroot, RssXmlParser.parse_items, XNode.subscript, hch, hit]

/-- C1 witness: the amended statement at concrete inputs — a decode failure
fails with ParsingException, while a channel without an item key fails with
KeyError "item". -/
theorem C1_amended_witness :
    RssXmlParser.parse (RssXmlParser.initMc none (MC.collector []))
      = Except.error
          (PyErr.parsingException "Source doesn't contain a valid RSS Feed.")
    ∧ RssXmlParser.parse
        (RssXmlParser.initMc
          (some [(RSS_ROOT, XNode.obj [(RSS_CHANNEL, XNode.obj [])])])
          (MC.collector []))
      = Except.error (PyErr.keyError RSS_ITEMS) :=
  ⟨(C1_amended_error_kinds []).1 none (Or.inl rfl),
   (C1_amended_error_kinds []).2.2 _ _ _ rfl rfl rfl⟩

/-- C6 counterexample: a single-item feed whose item entry decoded to a lone
mapping is not normalized into a one-element list; iterating the mapping
yields its keys, and extracting fields from a key (a string) fails with
AttributeError instead of producing a one-item feed. -/
theorem C6_counterexample :
    RssXmlParser.parse
        (RssXmlParser.initMc
          (some [(RSS_ROOT, XNode.obj [(RSS_CHANNEL, XNode.obj [(RSS_ITEMS,
            XNode.obj [(RSS_ITEM_TITLE, XNode.str "T"),
                       (RSS_ITEM_LINK, XNode.str "L"),
                       (RSS_ITEM_PUB_DATE,
                        XNode.str "Mon, 01 Jan 2024 00:00:00 GMT")])])])])
          (MC.collector []))
      = Except.error (PyErr.attributeError "get") :=
  rfl

/-- C6 (amended): a lone item mapping under the item key is not normalized:
for any non-empty lone item mapping the parser iterates over the mapping
keys and fails with AttributeError; an empty lone mapping yields an empty
feed. -/
theorem C6_amended_lone_item_fails (kv : String × XNode)
    (d : List (String × XNode)) (ms : List String) :
    RssXmlParser.parse
        (RssXmlParser.initMc
          (some [(RSS_ROOT, XNode.obj [(RSS_CHANNEL,
            XNode.obj [(RSS_ITEMS, XNode.obj (kv :: d))])])])
          (MC.collector ms))
      = Except.error (PyErr.attributeError "get")
    ∧ RssXmlParser.parse
        (RssXmlParser.initMc
          (some [(RSS_ROOT, XNode.obj [(RSS_CHANNEL,
            XNode.obj [(RSS_ITEMS, XNode.obj [])])])])
          (MC.collector ms))
      = Except.ok
          (⟨[]⟩, MC.collector (ms ++ ["Parsing RSS Feed by elements",
            "Parsing items info", "Parsing finished"])) := by
  constructor
  · simp [RssXmlParser.parse, RssXmlParser.initMc, MC.add_message, tryGetRoot,
      RssXmlParser.parse_items, XNode.subscript, XNode.pyIter,
      RssXmlParser.parse_items_loop, RssXmlParser.parse_item]
  · simp [RssXmlParser.parse, RssXmlParser.initMc, MC.add_message, tryGetRoot,
      RssXmlParser.parse_items, XNode.subscript, XNode.pyIter,
      RssXmlParser.parse_items_loop]

/-- C9: the JSON-file adapter returns an empty feed, not an error, when the
path does not exist; for an existing path it returns exactly the mapper
deserialization of the content — in particular an item that would fail
XML-side validation (empty title) is kept, showing that the Extractor and
the Validator are not involved. -/
theorem C9_json_file_adapter (mc : MC) :
    RssJsonParser.parse ⟨none, mc⟩ = Except.ok ⟨[]⟩
    ∧ (∀ c, RssJsonParser.parse ⟨some c, mc⟩
        = Except.ok (RSS_FEED_JSON_MAPPER_from_json c))
    ∧ RssXmlParser.validate_correctness (itemOfLine "\td\t\t\t\t") = false
    ∧ RssJsonParser.parse ⟨some "\td\t\t\t\t", mc⟩
        = Except.ok ⟨[itemOfLine "\td\t\t\t\t"]⟩ :=
  ⟨rfl, fun _ => rfl, rfl, rfl⟩

/-- The two error messages of the URL adapter differ for every source
string, so the invalid-URL case is distinguishable from the
connection-failure case by message text alone. -/
lemma url_error_msgs_ne (s : String) :
    ("Invalid source URL: " ++ s) ≠ ("Unable to connect to " ++ s) := by
  intro h
  have h2 := congrArg String.length h
  rw [String.length_append, String.length_append] at h2
  have e1 : ("Invalid source URL: " : String).length = 20 := rfl
  have e2 : ("Unable to connect to " : String).length = 21 := rfl
  rw [e1, e2] at h2
  omega

/-- C7: with a usable sink, an invalid/malformed URL, a connection failure,
and a non-200 HTTP status each make the URL adapter parse() fail with
ParsingException whose message names the source; the invalid-URL message
differs from the connection-failure message (which the non-200 case
shares). -/
theorem C7_url_error_kinds (s : String) (ms : List String) (fr : FetchResult) :
    (fr = FetchResult.invalidUrlErr →
      RssUrlParser.parse ⟨s, MC.collector ms, fr⟩
        = Except.error
            (PyErr.parsingException ("Invalid source URL: " ++ s)))
    ∧ (fr = FetchResult.connectionErr →
      RssUrlParser.parse ⟨s, MC.collector ms, fr⟩
        = Except.error
            (PyErr.parsingException ("Unable to connect to " ++ s)))
    ∧ (∀ st body, fr = FetchResult.ok st body → st ≠ 200 →
      RssUrlParser.parse ⟨s, MC.collector ms, fr⟩
        = Except.error
            (PyErr.parsingException ("Unable to connect to " ++ s)))
    ∧ ("Invalid source URL: " ++ s) ≠ ("Unable to connect to " ++ s) := by
  refine ⟨?_, ?_, ?_, url_error_msgs_ne s⟩
  · rintro rfl
    rfl
  · rintro rfl
    rfl
  · rintro st body rfl hst
    simp [RssUrlParser.parse, MC.add_message, RssUrlParser.handleConnect, hst]

/-- C7 witness: the statement at concrete failing fetches. -/
theorem C7_url_error_kinds_witness :
    RssUrlParser.parse ⟨"not a url", MC.collector [], FetchResult.invalidUrlErr⟩
      = Except.error
          (PyErr.parsingException ("Invalid source URL: " ++ "not a url"))
    ∧ RssUrlParser.parse
        ⟨"http://x", MC.collector [], FetchResult.ok 404 none⟩
      = Except.error
          (PyErr.parsingException ("Unable to connect to " ++ "http://x"))
    ∧ ("Invalid source URL: " ++ "not a url")
        ≠ ("Unable to connect to " ++ "not a url") :=
  ⟨(C7_url_error_kinds "not a url" [] FetchResult.invalidUrlErr).1 rfl,
   (C7_url_error_kinds "http://x" [] (FetchResult.ok 404 none)).2.2.1 404 none
     rfl (by decide),
   (C7_url_error_kinds "not a url" [] FetchResult.invalidUrlErr).2.2.2⟩

/-- C8: when the fetch succeeds with status 200 and the XML parser yields a
feed, the URL adapter returns exactly that feed with the source field of
every item set to the source string; stamping changes no other field and
the map preserves item order. -/
theorem C8_url_success_stamps_source (s : String) (ms : List String)
    (d : DecodeResult) (feed : RssFeed) (mc2 : MC)
    (h : RssXmlParser.parse ⟨d, MC.collector (ms ++ ["Reaching out to " ++ s])⟩
          = Except.ok (feed, mc2)) :
    RssUrlParser.parse ⟨s, MC.collector ms, FetchResult.ok 200 d⟩
      = Except.ok
          (⟨feed.rss_items.map (fun it => { it with source := some s })⟩, mc2)
    ∧ ∀ it : RssItem,
        ({ it with source := some s } : RssItem).title = it.title
        ∧ ({ it with source := some s } : RssItem).description = it.description
        ∧ ({ it with source := some s } : RssItem).publication_date
            = it.publication_date
        ∧ ({ it with source := some s } : RssItem).link = it.link
        ∧ ({ it with source := some s } : RssItem).image_url = it.image_url
        ∧ ({ it with source := some s } : RssItem).source = some s := by
  constructor
  · unfold RssUrlParser.parse
    simp only [MC.add_message]
    rw [h]
    simp
  · intro it
    exact ⟨rfl, rfl, rfl, rfl, rfl, rfl⟩

/-- A sample decoded single-item document (the end-to-end spec example). -/
def sampleDoc : DecodeResult :=
  some [(RSS_ROOT, XNode.obj [(RSS_CHANNEL, XNode.obj [(RSS_ITEMS,
    XNode.list [XNode.obj [(RSS_ITEM_TITLE, XNode.str "T"),
                           (RSS_ITEM_LINK, XNode.str "L"),
                           (RSS_ITEM_PUB_DATE,
                            XNode.str "Mon, 01 Jan 2024 00:00:00 GMT")]])])])]

/-- The item that `sampleDoc` parses to. -/
def sampleItem : RssItem :=
  { title := some "T"
    description := none
    publication_date := some ⟨1, 1, 2024, 0, 0, 0, "GMT"⟩
    link := some (XNode.str "L")
    image_url := none
    source := none }

/-- C8 witness: fetching the sample document over a URL yields the XML
parse result with the source stamped on the item. -/
theorem C8_url_success_witness :
    RssUrlParser.parse ⟨"u", MC.collector [], FetchResult.ok 200 sampleDoc⟩
      = Except.ok
          (⟨[{ sampleItem with source := some "u" }]⟩,
           MC.collector ["Reaching out to u", "Parsing RSS Feed by elements",
             "Parsing items info", "Parsing finished"]) := by
  exact (C8_url_success_stamps_source "u" [] sampleDoc ⟨[sampleItem]⟩
    (MC.collector ["Reaching out to u", "Parsing RSS Feed by elements",
      "Parsing items info", "Parsing finished"]) rfl).1

/-- The per-item loop of `parse_items`, run with a recording sink over raw
nodes whose extraction succeeds: the accepted items are the validated ones
in order, and one skip diagnostic is recorded per rejected item. -/
lemma parse_items_loop_spec {nodes : List XNode} {its : List RssItem}
    (hd : List.Forall₂
      (fun n it => RssXmlParser.parse_item n = Except.ok it) nodes its) :
    ∀ ms : List String,
      RssXmlParser.parse_items_loop (MC.collector ms) nodes
        = Except.ok
            (its.filter (fun it => RssXmlParser.validate_correctness it),
             MC.collector (ms ++ List.replicate
               (its.countP (fun it => !RssXmlParser.validate_correctness it))
               skipMsg)) := by
  induction hd with
  | nil =>
    intro ms
    simp [RssXmlParser.parse_items_loop]
  | cons hni htail ih =>
    rename_i n it ns is
    intro ms
    simp only [RssXmlParser.parse_items_loop, hni]
    by_cases hv : RssXmlParser.validate_correctness it
    · rw [ih ms]
      simp [hv, List.countP_cons, List.filter_cons]
    · simp only [hv, Bool.false_eq_true, if_false, MC.add_message]
      rw [ih (ms ++ [skipMsg])]
      simp [hv, List.countP_cons, List.filter_cons, List.replicate_succ,
        List.append_assoc]

/-- Accepted and rejected item counts partition a list of items. -/
lemma countP_validate_split (its : List RssItem) :
    its.countP (fun it => RssXmlParser.validate_correctness it)
      + its.countP (fun it => !RssXmlParser.validate_correctness it)
      = its.length := by
  induction its with
  | nil => rfl
  | cons a l ih =>
    by_cases h : RssXmlParser.validate_correctness a <;>
      simp [List.countP_cons, h] <;> omega

/-- C3: for a well-formed document with N raw items whose extraction
succeeds, parsing returns exactly the items that pass validation, in
original order (a filter of the extracted sequence), records one skip
diagnostic per rejected item, and no rejected item aborts the parse; the
feed size is N minus the number K of rejected items. -/
theorem C3_feed_filters_invalid_items (nodes : List XNode)
    (its : List RssItem) (ms : List String)
    (hd : List.Forall₂
      (fun n it => RssXmlParser.parse_item n = Except.ok it) nodes its) :
    RssXmlParser.parse
        (RssXmlParser.initMc
          (some [(RSS_ROOT, XNode.obj [(RSS_CHANNEL,
            XNode.obj [(RSS_ITEMS, XNode.list nodes)])])])
          (MC.collector ms))
      = Except.ok
          (⟨its.filter (fun it => RssXmlParser.validate_correctness it)⟩,
           MC.collector (ms
             ++ ["Parsing RSS Feed by elements", "Parsing items info"]
             ++ List.replicate
                  (its.countP
                    (fun it => !RssXmlParser.validate_correctness it))
                  skipMsg
             ++ ["Parsing finished"]))
    ∧ (its.filter (fun it => RssXmlParser.validate_correctness it)).length
        = nodes.length
          - its.countP (fun it => !RssXmlParser.validate_correctness it) := by
  constructor
  · have key : RssXmlParser.parse
        (RssXmlParser.initMc
          (some [(RSS_ROOT, XNode.obj [(RSS_CHANNEL,
            XNode.obj [(RSS_ITEMS, XNode.list nodes)])])])
          (MC.collector ms))
        = (match RssXmlParser.parse_items_loop
              (MC.collector ((ms ++ ["Parsing RSS Feed by elements"])
                ++ ["Parsing items info"])) nodes with
           | Except.error e => Except.error e
           | Except.ok (items, mc3) =>
             match mc3.add_message "Parsing finished" with
             | Except.error e => Except.error e
             | Except.ok mc4 => Except.ok (⟨items⟩, mc4)) := rfl
    rw [key, parse_items_loop_spec hd]
    simp [MC.add_message, List.append_assoc]
  · have hlen := List.Forall₂.length_eq hd
    have h1 := List.countP_eq_length_filter
      (fun it => RssXmlParser.validate_correctness it) its
    have h2 := countP_validate_split its
    omega

/-- C3 witness: a two-item document whose second item lacks a link and a
date parses to the one-item feed with one skip diagnostic. -/
theorem C3_feed_filters_witness :
    RssXmlParser.parse
        (RssXmlParser.initMc
          (some [(RSS_ROOT, XNode.obj [(RSS_CHANNEL,
            XNode.obj [(RSS_ITEMS, XNode.list
              [XNode.obj [(RSS_ITEM_TITLE, XNode.str "T"),
                          (RSS_ITEM_LINK, XNode.str "L"),
                          (RSS_ITEM_PUB_DATE,
                           XNode.str "Mon, 01 Jan 2024 00:00:00 GMT")],
               XNode.obj [(RSS_ITEM_TITLE, XNode.str "U")]])])])])
          (MC.collector []))
      = Except.ok
          (⟨[sampleItem]⟩,
           MC.collector (["Parsing RSS Feed by elements", "Parsing items info"]
             ++ [skipMsg] ++ ["Parsing finished"])) := by
  have h := (C3_feed_filters_invalid_items
    [XNode.obj [(RSS_ITEM_TITLE, XNode.str "T"),
                (RSS_ITEM_LINK, XNode.str "L"),
                (RSS_ITEM_PUB_DATE, XNode.str "Mon, 01 Jan 2024 00:00:00 GMT")],
     XNode.obj [(RSS_ITEM_TITLE, XNode.str "U")]]
    [sampleItem,
     { title := some "U", description := none, publication_date := none,
       link := none, image_url := none, source := none }]
    []
    (List.Forall₂.cons rfl (List.Forall₂.cons rfl List.Forall₂.nil))).1
  simpa using h

/-- The declared enclosure MIME type as the item node presents it: the
string under the enclosure type attribute, empty when absent. -/
def enclosureType (d : List (String × XNode)) : String :=
  match subLookup (d.lookup RSS_IMAGE_ROOT_ENCLOSURE) "@type" with
  | some (.str s) => s
  | _ => ""

/-- The image-extraction rule exactly as the specification claims it: the
first non-empty (truthy) candidate in the fixed order — direct image field,
media:content url, media:thumbnail url, enclosure url when its declared type
starts with "image/" — and null when no candidate succeeds. -/
def specImageClaim (d : List (String × XNode)) : Option XNode :=
  if truthyO (d.lookup RSS_IMAGE_ROOT) then d.lookup RSS_IMAGE_ROOT
  else if truthyO (subLookup (d.lookup RSS_IMAGE_ROOT_MEDIA_CONTENT)
      RSS_IMAGE_URL_ATTR) then
    subLookup (d.lookup RSS_IMAGE_ROOT_MEDIA_CONTENT) RSS_IMAGE_URL_ATTR
  else if truthyO (subLookup (d.lookup RSS_IMAGE_ROOT_MEDIA_THUMBNAIL)
      RSS_IMAGE_URL_ATTR) then
    subLookup (d.lookup RSS_IMAGE_ROOT_MEDIA_THUMBNAIL) RSS_IMAGE_URL_ATTR
  else if strStartsWith (enclosureType d) "image/"
      && truthyO (subLookup (d.lookup RSS_IMAGE_ROOT_ENCLOSURE)
            RSS_IMAGE_URL_ATTR) then
    subLookup (d.lookup RSS_IMAGE_ROOT_ENCLOSURE) RSS_IMAGE_URL_ATTR
  else none

/-- The amended image-extraction rule: identical priority order and
first-truthy-wins behaviour, but when no candidate is truthy the value held
last is returned — the enclosure url whenever the declared type starts with
"image/" (even when that url is empty), otherwise the media:thumbnail
lookup result (an empty value rather than null when the thumbnail url is
present but empty); all locations absent still yields null. -/
def specImageAmended (d : List (String × XNode)) : Option XNode :=
  if truthyO (d.lookup RSS_IMAGE_ROOT) then d.lookup RSS_IMAGE_ROOT
  else if truthyO (subLookup (d.lookup RSS_IMAGE_ROOT_MEDIA_CONTENT)
      RSS_IMAGE_URL_ATTR) then
    subLookup (d.lookup RSS_IMAGE_ROOT_MEDIA_CONTENT) RSS_IMAGE_URL_ATTR
  else if truthyO (subLookup (d.lookup RSS_IMAGE_ROOT_MEDIA_THUMBNAIL)
      RSS_IMAGE_URL_ATTR) then
    subLookup (d.lookup RSS_IMAGE_ROOT_MEDIA_THUMBNAIL) RSS_IMAGE_URL_ATTR
  else if strStartsWith (enclosureType d) "image/" then
    subLookup (d.lookup RSS_IMAGE_ROOT_ENCLOSURE) RSS_IMAGE_URL_ATTR
  else
    subLookup (d.lookup RSS_IMAGE_ROOT_MEDIA_THUMBNAIL) RSS_IMAGE_URL_ATTR

/-- Shape hypothesis: whenever key `k` is present on the item node, its
value is a sub-mapping (as in decoded RSS extension elements). -/
def wfSub (d : List (String × XNode)) (k : String) : Prop :=
  ∀ v, d.lookup k = some v → ∃ sd, v = XNode.obj sd

/-- Shape hypothesis: the enclosure type attribute, when present, is a
string. -/
def wfEnclosureType (d : List (String × XNode)) : Prop :=
  ∀ sd, d.lookup RSS_IMAGE_ROOT_ENCLOSURE = some (XNode.obj sd) →
    ∀ v, sd.lookup "@type" = some v → ∃ s, v = XNode.str s

/-- A `d.get(k, {}).get(k2)` chain never raises when present values are
sub-mappings; it computes the total `subLookup`. -/
lemma pyGetOn_wf {d : List (String × XNode)} {k : String}
    (h : wfSub d k) (k2 : String) :
    pyGetOn (getOrEmptyObj (d.lookup k)) k2
      = Except.ok (subLookup (d.lookup k) k2) := by
  cases hv : d.lookup k with
  | none => rfl
  | some v =>
    obtain ⟨sd, rfl⟩ := h v hv
    rfl

/-- C4 counterexample: an item whose only image location is a media:thumbnail
with an empty url makes parse_image return the empty string, while the
claimed rule (first non-empty candidate, else null) yields null. -/
theorem C4_counterexample :
    RssXmlParser.parse_image
        [(RSS_IMAGE_ROOT_MEDIA_THUMBNAIL,
          XNode.obj [(RSS_IMAGE_URL_ATTR, XNode.str "")])]
      = Except.ok (some (XNode.str ""))
    ∧ specImageClaim
        [(RSS_IMAGE_ROOT_MEDIA_THUMBNAIL,
          XNode.obj [(RSS_IMAGE_URL_ATTR, XNode.str "")])]
      = none
    ∧ some (XNode.str "") ≠ (none : Option XNode) :=
  ⟨rfl, rfl, fun h => Option.noConfusion h⟩

/-- C4 (amended): for an item node whose present image sub-objects are
mappings with a string-typed enclosure type, parse_image never errors and
returns exactly the amended ordered-fallback result (first truthy candidate
wins and later locations are never used; with no truthy candidate the last
examined value is returned, null when the locations are absent); moreover
with all four locations absent the result is null. -/
theorem C4_amended_image_priority (d : List (String × XNode))
    (h2 : wfSub d RSS_IMAGE_ROOT_MEDIA_CONTENT)
    (h3 : wfSub d RSS_IMAGE_ROOT_MEDIA_THUMBNAIL)
    (h4 : wfSub d RSS_IMAGE_ROOT_ENCLOSURE)
    (h5 : wfEnclosureType d) :
    RssXmlParser.parse_image d = Except.ok (specImageAmended d)
    ∧ (d.lookup RSS_IMAGE_ROOT = none →
        d.lookup RSS_IMAGE_ROOT_MEDIA_CONTENT = none →
        d.lookup RSS_IMAGE_ROOT_MEDIA_THUMBNAIL = none →
        d.lookup RSS_IMAGE_ROOT_ENCLOSURE = none →
        RssXmlParser.parse_image d = Except.ok none) := by
  constructor
  · unfold RssXmlParser.parse_image specImageAmended
    rw [pyGetOn_wf h2, pyGetOn_wf h3]
    by_cases t1 : truthyO (d.lookup RSS_IMAGE_ROOT)
    · simp [t1]
    · simp only [t1, Bool.false_eq_true, if_false]
      by_cases t2 : truthyO (subLookup (d.lookup RSS_IMAGE_ROOT_MEDIA_CONTENT)
          RSS_IMAGE_URL_ATTR)
      · simp [t2]
      · simp only [t2, Bool.false_eq_true, if_false]
        by_cases t3 : truthyO
            (subLookup (d.lookup RSS_IMAGE_ROOT_MEDIA_THUMBNAIL)
              RSS_IMAGE_URL_ATTR)
        · simp [t3]
        · simp only [t3, Bool.false_eq_true, if_false]
          cases henc : d.lookup RSS_IMAGE_ROOT_ENCLOSURE with
          | none =>
            simp [henc, getOrEmptyObj, pyGetOn, subLookup, enclosureType,
              strStartsWith, startsWithChars]
          | some w =>
            obtain ⟨sd, rfl⟩ := h4 w henc
            cases hty : sd.lookup "@type" with
            | none =>
              simp [henc, getOrEmptyObj, pyGetOn, subLookup, enclosureType,
                hty, strStartsWith, startsWithChars]
            | some v =>
              obtain ⟨s, rfl⟩ := h5 sd henc v hty
              simp only [henc, getOrEmptyObj, pyGetOn, subLookup,
                enclosureType, hty, Option.getD_some]
              by_cases hs : strStartsWith s "image/"
              · simp [hs]
              · simp [hs]
  · intro a1 a2 a3 a4
    unfold RssXmlParser.parse_image
    simp [a1, a2, a3, a4, getOrEmptyObj, pyGetOn, subLookup, truthyO,
      enclosureType, strStartsWith, startsWithChars]

/-- C4 witness: the amended statement at concrete nodes — a direct image
field wins, and an item with no image locations yields null without error. -/
theorem C4_amended_witness :
    RssXmlParser.parse_image [(RSS_IMAGE_ROOT, XNode.str "direct")]
      = Except.ok (specImageAmended [(RSS_IMAGE_ROOT, XNode.str "direct")])
    ∧ RssXmlParser.parse_image [(RSS_ITEM_TITLE, XNode.str "T")]
      = Except.ok none := by
  constructor
  · exact (C4_amended_image_priority [(RSS_IMAGE_ROOT, XNode.str "direct")]
      (fun v hv => Option.noConfusion hv)
      (fun v hv => Option.noConfusion hv)
      (fun v hv => Option.noConfusion hv)
      (fun sd hsd => Option.noConfusion hsd)).1
  · exact (C4_amended_image_priority [(RSS_ITEM_TITLE, XNode.str "T")]
      (fun v hv => Option.noConfusion hv)
      (fun v hv => Option.noConfusion hv)
      (fun v hv => Option.noConfusion hv)
      (fun sd hsd => Option.noConfusion hsd)).2 rfl rfl rfl rfl

/-- C10 counterexample: with capacity 0, the Python slice `history[-0:]` keeps
the whole history, so one `set_value` leaves one key in the history where
the claim demands min(1, 0) = 0. -/
theorem C10_counterexample :
    HistoryDict.get_history
        (HistoryDict.set_value
          (HistoryDict.init (fun _ : String => (none : Option Nat)) 0) "a" 1)
      = ["a"]
    ∧ (["a"] : List String).length ≠ min 1 0 :=
  ⟨rfl, by decide⟩

/-- Re-slicing the last `c` elements after an append absorbs an earlier
slice of the last `c` elements. -/
lemma drop_last_append (c : Nat) (xs ys : List α) :
    ((xs.drop (xs.length - c)) ++ ys).drop
        (((xs.drop (xs.length - c)) ++ ys).length - c)
      = (xs ++ ys).drop ((xs ++ ys).length - c) := by
  rw [List.length_append, List.length_append, List.length_drop,
    List.drop_append_eq_append_drop, List.drop_append_eq_append_drop,
    List.drop_drop, List.length_drop]
  congr 1
  · congr 1
    omega
  · congr 1
    omega

/-- Invariant run lemma for capacities ≥ 1: starting from a history no
longer than the capacity, the run keeps exactly the last `c` of the old
history followed by the keys set, in order. -/
lemma HistoryDict.run_history {K V : Type} [DecidableEq K] (c : Nat)
    (hc : 1 ≤ c) :
    ∀ (ops : List (K × V)) (h : HistoryDict K V), h.count = c →
      h.history.length ≤ c →
      (HistoryDict.run h ops).history
        = (h.history ++ ops.map Prod.fst).drop
            ((h.history ++ ops.map Prod.fst).length - c) := by
  intro ops
  induction ops with
  | nil =>
    intro h hcount hlen
    simp only [HistoryDict.run, List.foldl_nil, List.map_nil, List.append_nil]
    have : h.history.length - c = 0 := by omega
    rw [this, List.drop_zero]
  | cons op ops ih =>
    intro h hcount hlen
    have hstep : (HistoryDict.run h (op :: ops))
        = HistoryDict.run (h.set_value op.1 op.2) ops := rfl
    have hcount2 : (h.set_value op.1 op.2).count = c := hcount
    have hhist : (h.set_value op.1 op.2).history
        = (h.history ++ [op.1]).drop ((h.history ++ [op.1]).length - c) := by
      simp only [HistoryDict.set_value, pyLastSlice, hcount]
      rw [if_neg (by omega)]
    have hlen2 : (h.set_value op.1 op.2).history.length ≤ c := by
      rw [hhist, List.length_drop, List.length_append]
      simp
      omega
    rw [hstep, ih _ hcount2 hlen2, hhist, List.map_cons]
    rw [drop_last_append c (h.history ++ [op.1]) (ops.map Prod.fst)]
    rw [List.append_assoc, List.singleton_append]

/-- With capacity 0 the slice keeps everything: the history accumulates all
keys set. -/
lemma HistoryDict.run_history_zero {K V : Type} [DecidableEq K] :
    ∀ (ops : List (K × V)) (h : HistoryDict K V), h.count = 0 →
      (HistoryDict.run h ops).history = h.history ++ ops.map Prod.fst := by
  intro ops
  induction ops with
  | nil =>
    intro h hcount
    simp [HistoryDict.run]
  | cons op ops ih =>
    intro h hcount
    have hstep : (HistoryDict.run h (op :: ops))
        = HistoryDict.run (h.set_value op.1 op.2) ops := rfl
    have hcount2 : (h.set_value op.1 op.2).count = 0 := hcount
    have hhist : (h.set_value op.1 op.2).history = h.history ++ [op.1] := by
      simp [HistoryDict.set_value, pyLastSlice, hcount]
    rw [hstep, ih (h.set_value op.1 op.2) hcount2, hhist, List.map_cons,
      List.append_assoc, List.singleton_append]

/-- C10 (amended): for capacity count ≥ 1 the history after n set_value
calls is exactly the last min(n, count) keys in call order, and every
set_value stores its value in the dictionary under its key; for count = 0
the Python slice keeps the whole list, so all n keys are returned. -/
theorem C10_amended_history {K V : Type} [DecidableEq K]
    (d0 : K → Option V) (c : Nat) (ops : List (K × V)) :
    (1 ≤ c →
      HistoryDict.get_history (HistoryDict.run (HistoryDict.init d0 c) ops)
          = (ops.map Prod.fst).drop (ops.length - c)
      ∧ (HistoryDict.get_history
            (HistoryDict.run (HistoryDict.init d0 c) ops)).length
          = min ops.length c)
    ∧ (c = 0 →
      HistoryDict.get_history (HistoryDict.run (HistoryDict.init d0 c) ops)
        = ops.map Prod.fst)
    ∧ ∀ (h : HistoryDict K V) (k : K) (v : V),
        (h.set_value k v).dict k = some v := by
  refine ⟨?_, ?_, ?_⟩
  · intro hc
    have h := HistoryDict.run_history c hc ops (HistoryDict.init d0 c) rfl
      (by simp [HistoryDict.init])
    have hinit : (HistoryDict.init d0 c).history = ([] : List K) := rfl
    rw [hinit, List.nil_append] at h
    have hmap : (ops.map Prod.fst).length = ops.length := List.length_map _ _
    constructor
    · show (HistoryDict.run (HistoryDict.init d0 c) ops).history = _
      rw [h, hmap]
    · show ((HistoryDict.run (HistoryDict.init d0 c) ops).history).length = _
      rw [h, List.length_drop, hmap]
      omega
  · intro hc
    subst hc
    have h := HistoryDict.run_history_zero ops (HistoryDict.init d0 0) rfl
    simpa [HistoryDict.get_history, HistoryDict.init] using h
  · intro h k v
    simp [HistoryDict.set_value]

/-- C10 witness: the amended statement at concrete runs — capacity 2 keeps
the last two keys of three, capacity 0 keeps everything, and the dictionary
stores the set value. -/
theorem C10_amended_witness :
    HistoryDict.get_history
        (HistoryDict.run (HistoryDict.init (fun _ : String => (none : Option Nat)) 2)
          [("a", 1), ("b", 2), ("c", 3)])
      = ["b", "c"]
    ∧ HistoryDict.get_history
        (HistoryDict.run (HistoryDict.init (fun _ : String => (none : Option Nat)) 0)
          [("x", 7)])
      = ["x"]
    ∧ (HistoryDict.set_value
        (HistoryDict.init (fun _ : String => (none : Option Nat)) 2) "k" 5).dict "k"
      = some 5 := by
  refine ⟨?_, ?_, ?_⟩
  · exact ((C10_amended_history (fun _ : String => (none : Option Nat)) 2
      [("a", 1), ("b", 2), ("c", 3)]).1 (by decide)).1
  · exact (C10_amended_history (fun _ : String => (none : Option Nat)) 0
      [("x", 7)]).2.1 rfl
  · exact (C10_amended_history (fun _ : String => (none : Option Nat)) 2
      []).2.2 _ "k" 5

/-- C5 witness: the never-influence clause at a concrete item — changing
description and imageUrl leaves the verdict unchanged. -/
theorem C5_validator_witness :
    RssXmlParser.validate_correctness
        { sampleItem with description := some (XNode.str "d"),
                          image_url := some (XNode.str "i") }
      = RssXmlParser.validate_correctness sampleItem :=
  (C5_validator_iff sampleItem).2 (some (XNode.str "d")) (some (XNode.str "i"))
